import Mathlib

/-!
# Verification of the Snowflake/dbt/Prefect platform core

A shallow embedding of the repository's incremental-load/merge subsystem and
pipeline orchestrator, with theorems checking the natural-language
specification against the code.

Embedded modules:
* `ingestion/utils/snowflake_connector.py` — `write_dataframe`, `merge_dataframe`
* `ingestion/sources/ingest_exchange_rates.py` — `get_last_loaded_date`,
  `fetch_exchange_rates`, the chunked fetch/merge loop of `ingest_exchange_rates`
* `ingestion/sources/ingest_transactions.py` — `ingest_transactions`
* `orchestration/flows/ingestion_flow.py` — `ingestion_flow`
* `orchestration/flows/full_pipeline_flow.py` — `full_pipeline_flow`
* `orchestration/tasks/validation_tasks.py` — `validate_row_counts`

Tables keyed by a natural key are modelled as functions `K → Option V`
(the value of a key's non-key columns, or `none` if no row has that key);
heap tables loaded by plain inserts are modelled as row lists.  Each database
operation records the SQL side effects it performed in a trace of `SqlEvent`s,
and failures of the warehouse are injected through a `FailPoint` argument
naming the statement that raises, mirroring where the Python code can raise.
-/

namespace Platform

/-- A keyed table: for each natural key either the row's non-key column
values, or `none` when no row with that key exists. -/
def Table (K V : Type) := K → Option V

/-- SQL statements issued against the warehouse, as recorded by the
embedding's execution traces. -/
inductive SqlEvent where
  /-- `CREATE TEMPORARY TABLE … LIKE …` (merge_dataframe step 1). -/
  | createTemp
  /-- one `executemany` batch insert of `n` rows. -/
  | insertRows (n : Nat)
  /-- the single `MERGE INTO … USING …` statement (merge_dataframe step 3). -/
  | mergeStmt
  /-- `DROP TABLE IF EXISTS …` on the staging table. -/
  | dropTemp
  /-- `TRUNCATE TABLE IF EXISTS …`. -/
  | truncate
  deriving DecidableEq, Repr

/-- Failure injection: which warehouse statement of the current call raises.
`noFail` runs everything successfully; `atInsert i` makes the `i`-th batch
insert raise; `atCreate` / `atMerge` make the temp-table creation / the MERGE
statement raise. -/
inductive FailPoint where
  | noFail
  | atCreate
  | atInsert (i : Nat)
  | atMerge
  deriving DecidableEq, Repr

/-- Errors surfaced by the connector helpers: `valueError` is the
`ValueError("merge_keys must be provided …")` raised by `merge_dataframe`;
`sqlError` stands for an exception raised by a warehouse statement. -/
inductive DbError where
  | valueError
  | sqlError
  deriving DecidableEq, Repr

/-- Constant `BATCH_SIZE` from `ingestion/config.py` (default `10000`). -/
def BATCH_SIZE : Nat := 10000

/-- First row of `rows` whose key equals `k`, if any — how the staging table
contents bind to a given key in the MERGE join. -/
def lookupKey {K V : Type} [DecidableEq K] (rows : List (K × V)) (k : K) : Option V :=
  (rows.find? (fun r => r.1 = k)).map (·.2)

/-- Effect on the target table of
`MERGE INTO target USING staging ON <keys match>
 WHEN MATCHED THEN UPDATE SET <non-key cols> WHEN NOT MATCHED THEN INSERT …`
(merge_dataframe step 3): a key present in staging ends up with the staging
row's values; every other key keeps its previous row. -/
def mergeTable {K V : Type} [DecidableEq K] (t : Table K V) (rows : List (K × V)) :
    Table K V :=
  fun k =>
    match lookupKey rows k with
    | some v => some v
    | none => t k

/-- The batch-insert loop
`for i in range(0, len(rows), BATCH_SIZE): cursor.executemany(insert_sql, batch)`
shared by `write_dataframe` and `merge_dataframe`.  Returns the loop's
outcome, the rows actually inserted before any failure, and the trace of
insert statements executed.  `i` is the index of the next batch. -/
def loadBatches {α : Type} (failAt : FailPoint) (i : Nat) (rows : List α) :
    Except DbError Unit × List α × List SqlEvent :=
  match rows with
  | [] => (Except.ok (), [], [])
  | r :: rest =>
    if failAt = FailPoint.atInsert i then
      (Except.error DbError.sqlError, [], [])
    else
      let batch := r :: rest.take (BATCH_SIZE - 1)
      let next := loadBatches failAt (i + 1) (rest.drop (BATCH_SIZE - 1))
      (next.1, batch ++ next.2.1, SqlEvent.insertRows batch.length :: next.2.2)
  termination_by rows.length
  decreasing_by simp [List.length_drop]; omega

/-- Result of one `merge_dataframe` call: the Python return value (row count)
or the propagated exception, the target table afterwards, and the SQL trace. -/
structure MergeOutcome (K V : Type) where
  result : Except DbError Nat
  target : Table K V
  trace : List SqlEvent

/-- Model of `merge_dataframe` (snowflake_connector.py lines 158-245).
Control flow mirrored from the source: empty-DataFrame short-circuit, the
`merge_keys` ValueError, temp-table creation, batched load into the temp
table, the single MERGE statement, the success-path drop (step 4), and the
`except` handler that drops the temp table before re-raising. -/
def mergeDataframe {K V : Type} [DecidableEq K] (failAt : FailPoint)
    (df : List (K × V)) (mergeKeys : List String) (target : Table K V) :
    MergeOutcome K V :=
  if df.isEmpty then
    -- `if df.empty: return 0` — before the merge_keys check, no I/O
    ⟨Except.ok 0, target, []⟩
  else if mergeKeys.isEmpty then
    -- `raise ValueError(...)` — before any cursor activity
    ⟨Except.error DbError.valueError, target, []⟩
  else if failAt = FailPoint.atCreate then
    -- CREATE TEMPORARY TABLE raises; handler runs DROP TABLE IF EXISTS, re-raises
    ⟨Except.error DbError.sqlError, target, [SqlEvent.dropTemp]⟩
  else
    let load := loadBatches failAt 0 df
    match load.1 with
    | Except.error e =>
      -- a batch insert raised; handler drops the temp table, re-raises
      ⟨Except.error e, target,
        SqlEvent.createTemp :: load.2.2 ++ [SqlEvent.dropTemp]⟩
    | Except.ok _ =>
      if failAt = FailPoint.atMerge then
        -- the MERGE statement raised; handler drops the temp table, re-raises
        ⟨Except.error DbError.sqlError, target,
          SqlEvent.createTemp :: load.2.2 ++ [SqlEvent.dropTemp]⟩
      else
        -- success: MERGE applied, then step 4 drops the temp table
        ⟨Except.ok df.length, mergeTable target load.2.1,
          SqlEvent.createTemp :: load.2.2 ++ [SqlEvent.mergeStmt, SqlEvent.dropTemp]⟩

/-- The `mode` argument of `write_dataframe`: `'append'` or `'truncate'`. -/
inductive WriteMode where
  | append
  | truncate
  deriving DecidableEq, Repr

/-- Result of one `write_dataframe` call: return value or exception, the
target table's rows afterwards, and the SQL trace. -/
structure WriteOutcome (R : Type) where
  result : Except DbError Nat
  table : List R
  trace : List SqlEvent

/-- Model of `write_dataframe` (snowflake_connector.py lines 94-155): empty-DataFrame
short-circuit, optional truncate, then batched inserts.  Failures during a
batch insert propagate with the already-inserted batches committed (each
statement autocommits); there is no cleanup handler here. -/
def writeDataframe {R : Type} (mode : WriteMode) (failAt : FailPoint)
    (df : List R) (table : List R) : WriteOutcome R :=
  if df.isEmpty then
    ⟨Except.ok 0, table, []⟩
  else
    let base : List R := match mode with
      | WriteMode.truncate => []
      | WriteMode.append => table
    let evs : List SqlEvent := match mode with
      | WriteMode.truncate => [SqlEvent.truncate]
      | WriteMode.append => []
    let load := loadBatches failAt 0 df
    match load.1 with
    | Except.error e => ⟨Except.error e, base ++ load.2.1, evs ++ load.2.2⟩
    | Except.ok _ => ⟨Except.ok df.length, base ++ load.2.1, evs ++ load.2.2⟩

/-- Whether the staging table is alive after replaying a trace: created by
`createTemp`, removed by `dropTemp`. -/
def tempAlive (evs : List SqlEvent) : Bool :=
  evs.foldl
    (fun alive e =>
      match e with
      | SqlEvent.createTemp => true
      | SqlEvent.dropTemp => false
      | _ => alive)
    false

/-! ## Watermark resolver (`get_last_loaded_date`) -/

/-- Constant `DEFAULT_START_DATE = "2020-01-01"` from both incremental sources,
as a day number (days since 2020-01-01). -/
def DEFAULT_START_DATE : Nat := 0

/-- Model of `get_last_loaded_date` (ingest_exchange_rates.py lines 64-86 and, with a
ticker filter on the query, ingest_market_prices.py lines 69-93).  Dates are
day numbers.  The input is the outcome of the
`SELECT MAX(date) …` query: an exception (`Except.error`), or the list of
result rows' first-column values (`none` for a SQL NULL max).  The Python
`try/except: pass` plus the trailing `return DEFAULT_START_DATE` make the
function total: every failure or falsy result falls through to the default,
which is why the return type here is `Nat`, not `Except`. -/
def getLastLoadedDate (queryResult : Except Unit (List (Option Nat)))
    (defaultStart : Nat) : Nat :=
  match queryResult with
  | Except.error _ => defaultStart
  | Except.ok rows =>
    match rows with
    | [] => defaultStart
    | v :: _ =>
      match v with
      | none => defaultStart
      | some lastDate => lastDate + 1

/-! ## Exchange-rates source (`fetch_exchange_rates`, chunked merge loop) -/

/-- Constant `FX_BASE_CURRENCY` from ingestion/config.py. -/
def FX_BASE_CURRENCY : String := "EUR"

/-- Errors a fetch can hit: `requestError` is
`requests.exceptions.RequestException` (network/timeout/HTTP status),
`parseError` is any other exception while parsing the payload. -/
inductive FetchError where
  | requestError
  | parseError
  deriving DecidableEq, Repr

/-- One parsed FX rate record (rates kept as opaque integers — the claims
do not depend on float arithmetic). -/
structure RateRow where
  base : String
  target : String
  date : Nat
  rate : Int
  deriving DecidableEq, Repr

/-- The `data["rates"]` payload: per date, the currency→rate mapping. -/
def RatesPayload := List (Nat × List (String × Int))

/-- Model of `fetch_exchange_rates` (ingest_exchange_rates.py lines 89-147).  The
response is either an error or the parsed `rates` payload.  Crucially, both
`except` clauses (lines 142-147) catch the exception, log, and
`return pd.DataFrame()` — so every failure comes back as an empty row list,
not as an error value. -/
def fetchExchangeRates (resp : Except FetchError RatesPayload) : List RateRow :=
  match resp with
  | Except.error _ => []
  | Except.ok ratesData =>
    (ratesData.map (fun dayRates =>
      dayRates.2.map (fun currencyRate =>
        { base := FX_BASE_CURRENCY, target := currencyRate.1,
          date := dayRates.1, rate := currencyRate.2 }))).flatten

/-- Natural key of RAW.EXCHANGE_RATES.DAILY_RATES:
`(base_currency, target_currency, date)`. -/
def FxKey := String × String × Nat

instance : DecidableEq FxKey := by
  unfold FxKey
  infer_instance

/-- Project a fetched rate record onto (merge key, non-key columns). -/
def rateRowKeyed (r : RateRow) : FxKey × Int :=
  ((r.base, r.target, r.date), r.rate)

/-- The per-chunk loop body of `ingest_exchange_rates` (lines 179-201):
fetch a chunk, skip it when the DataFrame is empty, otherwise merge it into
the target keyed on `["base_currency", "target_currency", "date"]`.  Inputs
are the fetch outcomes of the successive chunks; the result is what the
caller (the Prefect task) observes — the total row count or the first
propagated exception — together with the target table afterwards. -/
def ingestExchangeRatesRun (resps : List (Except FetchError RatesPayload))
    (target : Table FxKey Int) : Except DbError Nat × Table FxKey Int :=
  match resps with
  | [] => (Except.ok 0, target)
  | resp :: rest =>
    let df := (fetchExchangeRates resp).map rateRowKeyed
    if df.isEmpty then
      ingestExchangeRatesRun rest target
    else
      let m := mergeDataframe FailPoint.noFail df
        ["base_currency", "target_currency", "date"] target
      match m.result with
      | Except.error e => (Except.error e, m.target)
      | Except.ok n =>
        let next := ingestExchangeRatesRun rest m.target
        (next.1.map (fun total => total + n), next.2)

/-! ## Transactions source (`ingest_transactions`) -/

/-- Result of one `ingest_transactions` run: outcome (total rows loaded or
the propagated exception), the target table's rows, and the SQL trace. -/
structure IngestOutcome (R : Type) where
  result : Except DbError Nat
  table : List R
  trace : List SqlEvent

/-- The per-file loop of `ingest_transactions` (lines 209-220): load each
CSV, skip empty DataFrames, append the rest via `write_dataframe`.
`failOf i` injects the warehouse failure for the write of file `i`; an error
propagates out of the `with` block with the partial state committed. -/
def loadCsvFiles {R : Type} (failOf : Nat → FailPoint) (i : Nat)
    (files : List (List R)) (table : List R) :
    Except DbError Nat × List R × List SqlEvent :=
  match files with
  | [] => (Except.ok 0, table, [])
  | f :: rest =>
    if f.isEmpty then
      loadCsvFiles failOf (i + 1) rest table
    else
      let w := writeDataframe WriteMode.append (failOf i) f table
      match w.result with
      | Except.error e => (Except.error e, w.table, w.trace)
      | Except.ok n =>
        let next := loadCsvFiles failOf (i + 1) rest w.table
        (next.1.map (fun total => total + n), next.2.1, w.trace ++ next.2.2)

/-- Model of `ingest_transactions` (ingest_transactions.py lines 176-224).  `files`
is the prepared row list of each CSV found by `find_csv_files` (in order).
With no files the function returns before opening a connection (lines
184-190): no statement runs, nothing is mutated.  Otherwise the target is
truncated (lines 202-205) and the files are appended one by one. -/
def ingestTransactions {R : Type} (failOf : Nat → FailPoint)
    (files : List (List R)) (table : List R) : IngestOutcome R :=
  if files.isEmpty then
    ⟨Except.ok 0, table, []⟩
  else
    let l := loadCsvFiles failOf 0 files []
    ⟨l.1, l.2.1, SqlEvent.truncate :: l.2.2⟩

/-! ## Ingestion flow (`ingestion_flow`) -/

/-- The dict `{"source": …, "status": …}` returned by each ingestion task. -/
structure SourceReport where
  source : String
  status : String
  deriving DecidableEq, Repr

/-- One Prefect ingestion task, from the flow's point of view: the effect
its run has on its own target table (the three sources write to disjoint
tables), and the outcome its future resolves to — the report dict, or the
exception left after the task exhausted its retries / timed out. -/
structure IngestTask (R : Type) where
  effect : List R → List R
  outcome : Except String SourceReport

/-- The warehouse's three ingestion target tables. -/
structure WarehouseState (R : Type) where
  txTable : List R
  mpTable : List R
  fxTable : List R
  deriving Repr

/-- Model of `ingestion_flow` (ingestion_flow.py lines 26-40).  All three tasks are
`submit`ted to the `ThreadPoolTaskRunner` before any result is awaited, so
every task runs (and commits to its own table) regardless of its siblings.
The flow then calls `.result()` on each future in order; Prefect's
`PrefectFuture.result()` re-raises the task's exception when the task ended
failed, which is modelled by the `Except` bind.  Only when all three resolved
does the flow build the completed-source report. -/
def ingestionFlow {R : Type} (txTask mpTask fxTask : IngestTask R)
    (s : WarehouseState R) :
    Except String (List SourceReport × Nat) × WarehouseState R :=
  let s' : WarehouseState R :=
    { txTable := txTask.effect s.txTable
      mpTable := mpTask.effect s.mpTable
      fxTable := fxTask.effect s.fxTable }
  let res : Except String (List SourceReport × Nat) := do
    let tx ← txTask.outcome
    let mp ← mpTask.outcome
    let fx ← fxTask.outcome
    let results := [tx, mp, fx]
    let completed := results.filter (fun r => r.status = "completed")
    pure (results, completed.length)
  (res, s')

/-! ## Full pipeline flow (`full_pipeline_flow`) -/

/-- Which summary was logged: `_log_failure_summary` on the ingestion-failure
early exit, or stage 4's `log_pipeline_summary` task. -/
inductive SummaryKind where
  | failureSummary
  | fullSummary
  deriving DecidableEq, Repr

/-- Observable shape of one `full_pipeline_flow` run. -/
structure PipelineRun where
  /-- stage 2 (`dbt_flow()`) was invoked at all. -/
  dbtRan : Bool
  /-- stage 3 (`validate_row_counts()`) was invoked at all. -/
  validationRan : Bool
  /-- which summary (if any) was logged before the flow returned/raised. -/
  summary : Option SummaryKind
  /-- the `_reconciliation_passed` value reaching the summary. -/
  reconciliationPassed : Bool
  /-- normal return, or the exception the flow raised. -/
  result : Except String Unit
  deriving Repr

/-- Model of `full_pipeline_flow` (full_pipeline_flow.py lines 32-88), over the
outcomes of its three fallible stages.  Ingestion failure: record, log the
failure summary, re-raise (dbt and validation never run).  dbt failure:
record and continue.  Validation failure: record, substitute
`{"_reconciliation_passed": False}`.  Stage 4 always runs on this path;
afterwards the flow raises `RuntimeError` iff the dbt stage result string
contains "failed". -/
def fullPipelineFlow (ing : Except String Unit) (dbt : Except String Unit)
    (val : Except String Bool) : PipelineRun :=
  match ing with
  | Except.error e =>
    { dbtRan := false
      validationRan := false
      summary := some SummaryKind.failureSummary
      reconciliationPassed := false
      result := Except.error e }
  | Except.ok _ =>
    let dbtFailed : Bool := match dbt with
      | Except.error _ => true
      | Except.ok _ => false
    let reconPassed : Bool := match val with
      | Except.error _ => false
      | Except.ok b => b
    { dbtRan := true
      validationRan := true
      summary := some SummaryKind.fullSummary
      reconciliationPassed := reconPassed
      result :=
        if dbtFailed then Except.error "Pipeline completed with errors"
        else Except.ok () }

/-! ## Reconciliation validator (`validate_row_counts`) -/

/-- One entry of `RECONCILIATION_RULES`. -/
structure ReconRule where
  name : String
  source : String
  target : String
  deriving DecidableEq, Repr

/-- The count recorded for one table by the query loop (validation_tasks.py
lines 69-75): the query's value on success, the sentinel `-1` when the
lookup raised. -/
def recordedCount (oracle : String → Except Unit Int) (table : String) : Int :=
  match oracle table with
  | Except.error _ => -1
  | Except.ok n => n

/-- The `counts` dict built over `ROW_COUNT_QUERIES`. -/
def buildCounts (oracle : String → Except Unit Int) (tables : List String) :
    List (String × Int) :=
  tables.map (fun t => (t, recordedCount oracle t))

/-- Lookup `counts.get(table, -1)` (validation_tasks.py lines 91-92). -/
def getCount (counts : List (String × Int)) (table : String) : Int :=
  match counts.lookup table with
  | some n => n
  | none => -1

/-- Check `passed = src_count == tgt_count and src_count >= 0`
(validation_tasks.py line 93). -/
def rulePassed (counts : List (String × Int)) (r : ReconRule) : Bool :=
  (getCount counts r.source == getCount counts r.target)
    && decide (0 ≤ getCount counts r.source)

/-- The reconciliation verdict of `validate_row_counts` (lines 89-105):
`all_passed` starts true and is cleared by any failing rule. -/
def validateRowCounts (oracle : String → Except Unit Int)
    (tables : List String) (rules : List ReconRule) : Bool :=
  rules.all (fun r => rulePassed (buildCounts oracle tables) r)

/-! ## Concrete instances used by closed counterexamples and witnesses -/

/-- A transactions task that exhausted its retries (or timed out): its future
resolves to the raised exception; no rows were committed to its table. -/
def txFailedTask : IngestTask Nat :=
  { effect := fun tbl => tbl
    outcome := Except.error "exhausted retries" }

/-- A market-prices task that succeeded, committing one row to its table. -/
def mpGoodTask : IngestTask Nat :=
  { effect := fun tbl => tbl ++ [7]
    outcome := Except.ok { source := "market_prices", status := "completed" } }

/-- An exchange-rates task that succeeded without new rows. -/
def fxGoodTask : IngestTask Nat :=
  { effect := fun tbl => tbl
    outcome := Except.ok { source := "exchange_rates", status := "completed" } }

/-- A warehouse whose three ingestion targets start empty. -/
def emptyWarehouse : WarehouseState Nat :=
  { txTable := [], mpTable := [], fxTable := [] }

/-- The empty keyed table. -/
def emptyFxTable : Table FxKey Int := fun _ => none

/-! ## Basic lemmas about the batch-insert loop -/

/-- With no injected insert failure, the batch loop succeeds and loads
exactly the input rows (the chunks `take`/`drop` recompose to the input). -/
theorem loadBatches_noFail {α : Type} :
    ∀ (n : Nat) (rows : List α), rows.length ≤ n → ∀ (i : Nat),
      (loadBatches (α := α) FailPoint.noFail i rows).1 = Except.ok () ∧
      (loadBatches (α := α) FailPoint.noFail i rows).2.1 = rows := by
  intro n
  induction n with
  | zero =>
    intro rows h i
    have : rows = [] := List.length_eq_zero.mp (Nat.le_zero.mp h)
    subst this
    rw [loadBatches]
    exact ⟨rfl, rfl⟩
  | succ n ih =>
    intro rows h i
    cases rows with
    | nil =>
      rw [loadBatches]
      exact ⟨rfl, rfl⟩
    | cons r rest =>
      have hlen : (rest.drop (BATCH_SIZE - 1)).length ≤ n := by
        have := List.length_drop (BATCH_SIZE - 1) rest
        simp only [List.length_cons] at h
        omega
      have hrec := ih (rest.drop (BATCH_SIZE - 1)) hlen (i + 1)
      rw [loadBatches]
      simp only [reduceCtorEq, if_false]
      refine ⟨hrec.1, ?_⟩
      rw [hrec.2]
      simp [List.take_append_drop]

/-- Lemma: `mergeTable` is idempotent in its batch: re-merging the same staging rows
rewrites each matched key to the value it already has and matches every key
it would otherwise insert. -/
theorem mergeTable_idem {K V : Type} [DecidableEq K]
    (t : Table K V) (rows : List (K × V)) :
    mergeTable (mergeTable t rows) rows = mergeTable t rows := by
  funext k
  unfold mergeTable
  cases h : lookupKey rows k <;> simp [h]

/-- On the no-failure path with a non-empty DataFrame and non-empty keys,
`merge_dataframe` merges exactly the input rows into the target. -/
theorem mergeDataframe_noFail_target {K V : Type} [DecidableEq K]
    (df : List (K × V)) (mergeKeys : List String) (t : Table K V)
    (h1 : df.isEmpty = false) (h2 : mergeKeys.isEmpty = false) :
    (mergeDataframe FailPoint.noFail df mergeKeys t).target = mergeTable t df := by
  have hl := loadBatches_noFail df.length df (le_refl _) 0
  unfold mergeDataframe
  rw [h1, h2]
  simp only [Bool.false_eq_true, if_false, reduceCtorEq, if_true]
  rw [hl.1]
  simp only [reduceCtorEq, if_false]
  rw [hl.2]

/-- On the no-failure path with a non-empty DataFrame and non-empty keys,
`merge_dataframe` returns the row count. -/
theorem mergeDataframe_noFail_result {K V : Type} [DecidableEq K]
    (df : List (K × V)) (mergeKeys : List String) (t : Table K V)
    (h1 : df.isEmpty = false) (h2 : mergeKeys.isEmpty = false) :
    (mergeDataframe FailPoint.noFail df mergeKeys t).result = Except.ok df.length := by
  have hl := loadBatches_noFail df.length df (le_refl _) 0
  unfold mergeDataframe
  rw [h1, h2]
  simp only [Bool.false_eq_true, if_false, reduceCtorEq, if_true]
  rw [hl.1]

/-- Merging an empty staging table changes nothing. -/
theorem mergeTable_nil {K V : Type} [DecidableEq K] (t : Table K V) :
    mergeTable t ([] : List (K × V)) = t := by
  funext k
  rfl

/-- The target table after one chunk of the exchange-rates loop: the fetched
batch merged into the target (for an empty batch the merge is skipped, which
coincides with merging nothing). -/
theorem ingestFxRun_single_target (resp : Except FetchError RatesPayload)
    (fx : Table FxKey Int) :
    (ingestExchangeRatesRun [resp] fx).2
      = mergeTable fx ((fetchExchangeRates resp).map rateRowKeyed) := by
  by_cases hdf : ((fetchExchangeRates resp).map rateRowKeyed).isEmpty
  · simp only [ingestExchangeRatesRun, hdf, if_true]
    rw [List.isEmpty_iff.mp hdf, mergeTable_nil]
  · have h2 : (["base_currency", "target_currency", "date"] : List String).isEmpty
        = false := rfl
    have htgt := mergeDataframe_noFail_target
      ((fetchExchangeRates resp).map rateRowKeyed)
      ["base_currency", "target_currency", "date"] fx
      (eq_false_of_ne_true hdf) h2
    simp only [ingestExchangeRatesRun, hdf, if_false, Bool.false_eq_true]
    split <;> simpa using htgt

/-- A trace whose last statement is `DROP TABLE IF EXISTS` leaves no staging
table behind. -/
theorem tempAlive_concat_dropTemp (evs : List SqlEvent) :
    tempAlive (evs ++ [SqlEvent.dropTemp]) = false := by
  unfold tempAlive
  rw [List.foldl_append]
  rfl

/-! ## Claim theorems -/

/-- C1: applying the merge pipeline (fetch, stage-load, merge via
`merge_dataframe` keyed on the source's natural key) twice with the same
input batch leaves the target table in the same state as applying it once —
re-applying identical rows updates matched keys to the values they already
have and inserts nothing, both at the `merge_dataframe` level and through the
exchange-rates fetch→load→merge loop. -/
theorem merge_pipeline_idempotent {K V : Type} [DecidableEq K]
    (df : List (K × V)) (mergeKeys : List String) (t : Table K V)
    (resp : Except FetchError RatesPayload) (fx : Table FxKey Int) :
    (mergeDataframe FailPoint.noFail df mergeKeys
        (mergeDataframe FailPoint.noFail df mergeKeys t).target).target
      = (mergeDataframe FailPoint.noFail df mergeKeys t).target ∧
    (ingestExchangeRatesRun [resp] (ingestExchangeRatesRun [resp] fx).2).2
      = (ingestExchangeRatesRun [resp] fx).2 := by
  constructor
  · by_cases h1 : df.isEmpty
    · unfold mergeDataframe
      rw [h1]
      simp
    · by_cases h2 : mergeKeys.isEmpty
      · unfold mergeDataframe
        rw [eq_false_of_ne_true h1, h2]
        simp
      · rw [mergeDataframe_noFail_target df mergeKeys t
            (eq_false_of_ne_true h1) (eq_false_of_ne_true h2),
          mergeDataframe_noFail_target df mergeKeys _
            (eq_false_of_ne_true h1) (eq_false_of_ne_true h2),
          mergeTable_idem]
  · simp only [ingestFxRun_single_target]
    rw [mergeTable_idem]

/-- C4: on every exit path of `merge_dataframe` — success, or an injected
failure at the temp-table creation, at any staging batch insert, or at the
MERGE statement — the transient staging table is dropped before the call
returns or the error propagates: replaying the call's SQL trace leaves no
staging table alive. -/
theorem merge_staging_always_dropped {K V : Type} [DecidableEq K]
    (failAt : FailPoint) (df : List (K × V)) (mergeKeys : List String)
    (t : Table K V) :
    tempAlive (mergeDataframe failAt df mergeKeys t).trace = false := by
  unfold mergeDataframe
  by_cases h1 : df.isEmpty
  · rw [h1]; simp [tempAlive]
  · rw [eq_false_of_ne_true h1]
    by_cases h2 : mergeKeys.isEmpty
    · rw [h2]; simp [tempAlive]
    · rw [eq_false_of_ne_true h2]
      by_cases h3 : failAt = FailPoint.atCreate
      · simp [h3, tempAlive]
      · simp only [h3, if_false, Bool.false_eq_true]
        cases hload : (loadBatches failAt 0 df).1 with
        | error e =>
          simp only []
          have : SqlEvent.createTemp :: (loadBatches failAt 0 df).2.2
              ++ [SqlEvent.dropTemp]
            = (SqlEvent.createTemp :: (loadBatches failAt 0 df).2.2)
              ++ [SqlEvent.dropTemp] := by simp
          rw [this, tempAlive_concat_dropTemp]
        | ok u =>
          by_cases h4 : failAt = FailPoint.atMerge
          · simp only [h4, if_true]
            have : SqlEvent.createTemp :: (loadBatches FailPoint.atMerge 0 df).2.2
                ++ [SqlEvent.dropTemp]
              = (SqlEvent.createTemp :: (loadBatches FailPoint.atMerge 0 df).2.2)
                ++ [SqlEvent.dropTemp] := by simp
            rw [this, tempAlive_concat_dropTemp]
          · simp only [h4, if_false, Bool.false_eq_true]
            have : SqlEvent.createTemp :: (loadBatches failAt 0 df).2.2
                ++ [SqlEvent.mergeStmt, SqlEvent.dropTemp]
              = ((SqlEvent.createTemp :: (loadBatches failAt 0 df).2.2)
                ++ [SqlEvent.mergeStmt]) ++ [SqlEvent.dropTemp] := by simp
            rw [this, tempAlive_concat_dropTemp]

/-- C5: the watermark resolver `get_last_loaded_date` returns the configured
default start date on an empty target (no result row or a NULL maximum),
returns `D + 1 day` when the target's maximum boundary date is `D`, and when
the MAX query itself raises it returns the default start date — the function
is total, no exception escapes. -/
theorem get_last_loaded_date_spec (defaultStart lastDate : Nat)
    (rest : List (Option Nat)) :
    getLastLoadedDate (Except.error ()) defaultStart = defaultStart ∧
    getLastLoadedDate (Except.ok []) defaultStart = defaultStart ∧
    getLastLoadedDate (Except.ok (none :: rest)) defaultStart = defaultStart ∧
    getLastLoadedDate (Except.ok (some lastDate :: rest)) defaultStart
      = lastDate + 1 :=
  ⟨rfl, rfl, rfl, rfl⟩

/-- C6 counterexample: called with an empty DataFrame AND an empty key set,
`merge_dataframe` does not raise the usage `ValueError` — the empty-DataFrame
short-circuit (line 181) fires before the `merge_keys` check (line 185), and
the call returns 0. -/
theorem mergeDataframe_empty_df_empty_keys_no_error :
    (mergeDataframe (K := Nat) (V := Nat) FailPoint.noFail [] []
        (fun _ => none)).result = Except.ok 0 ∧
    (mergeDataframe (K := Nat) (V := Nat) FailPoint.noFail [] []
        (fun _ => none)).result ≠ Except.error DbError.valueError := by
  refine ⟨rfl, ?_⟩
  intro h
  exact Except.noConfusion h

/-- C6 (amended): for every NON-empty input DataFrame, calling
`merge_dataframe` with an empty key set raises the usage `ValueError`
immediately, before any table I/O — no statement is executed (empty trace)
and the target is untouched; on an empty DataFrame the empty-batch
short-circuit takes precedence and returns 0 without I/O. -/
theorem mergeDataframe_missing_keys_fails_fast {K V : Type} [DecidableEq K]
    (failAt : FailPoint) (r : K × V) (df : List (K × V)) (t : Table K V) :
    mergeDataframe failAt (r :: df) ([] : List String) t
        = ⟨Except.error DbError.valueError, t, []⟩ ∧
    mergeDataframe failAt ([] : List (K × V)) ([] : List String) t
        = ⟨Except.ok 0, t, []⟩ :=
  ⟨rfl, rfl⟩

/-- C7: a reconciliation rule passes iff the recorded source count equals the
recorded target count and the source count is ≥ 0; a lookup failure is
recorded as the sentinel −1, which makes the rule fail whichever side it hits
(while a legitimate 0-vs-0 comparison passes, so the two are distinguishable);
and the overall verdict is pass iff every rule passes. -/
theorem validate_row_counts_spec (oracle : String → Except Unit Int)
    (tables : List String) (rules : List ReconRule)
    (counts : List (String × Int)) (r : ReconRule) (t : String) :
    (rulePassed counts r = true ↔
      (getCount counts r.source = getCount counts r.target
        ∧ 0 ≤ getCount counts r.source)) ∧
    recordedCount (fun _ => Except.error ()) t = -1 ∧
    rulePassed ((r.source, -1) :: counts) r = false ∧
    rulePassed ((r.target, -1) :: counts) r = false ∧
    rulePassed ((r.source, 0) :: (r.target, 0) :: counts) r = true ∧
    (validateRowCounts oracle tables rules = true ↔
      ∀ rr ∈ rules, rulePassed (buildCounts oracle tables) rr = true) := by
  refine ⟨?_, rfl, ?_, ?_, ?_, ?_⟩
  · simp [rulePassed, Bool.and_eq_true, beq_iff_eq, decide_eq_true_iff]
  · have hsrc : getCount ((r.source, -1) :: counts) r.source = -1 := by
      simp [getCount, List.lookup]
    unfold rulePassed
    rw [hsrc]
    simp
  · have htgt : getCount ((r.target, -1) :: counts) r.target = -1 := by
      simp [getCount, List.lookup]
    unfold rulePassed
    rw [htgt]
    by_cases hm : getCount ((r.target, -1) :: counts) r.source = -1
    · rw [hm]; simp
    · simp [hm]
  · have hsrc : getCount ((r.source, 0) :: (r.target, 0) :: counts) r.source
        = 0 := by simp [getCount, List.lookup]
    have htgt : getCount ((r.source, 0) :: (r.target, 0) :: counts) r.target
        = 0 := by
      unfold getCount
      rw [List.lookup]
      cases r.target == r.source <;> simp [List.lookup]
    unfold rulePassed
    rw [hsrc, htgt]
    simp
  · simp [validateRowCounts, List.all_eq_true]

/-- C8: for every empty row batch, both `write_dataframe` and
`merge_dataframe` are no-ops whatever the mode, keys or injected failure:
each returns 0 rows processed, leaves its table unchanged, and issues no SQL
statement at all. -/
theorem empty_batch_noop {K V R : Type} [DecidableEq K]
    (failAt failAt' : FailPoint) (mergeKeys : List String) (mode : WriteMode)
    (t : Table K V) (tbl : List R) :
    mergeDataframe failAt ([] : List (K × V)) mergeKeys t
        = ⟨Except.ok 0, t, []⟩ ∧
    writeDataframe mode failAt' ([] : List R) tbl = ⟨Except.ok 0, tbl, []⟩ :=
  ⟨rfl, rfl⟩

/-- C3: the pipeline's failure-propagation rule — whenever ingestion fails,
the dbt stage is skipped, the run fails with the ingestion error, but a
summary is still logged; whenever dbt fails, validation and the stage-4
summary still run and the pipeline is ultimately marked failed; and in every
execution a summary is emitted no matter which stage failed. -/
theorem pipeline_failure_propagation (e eDbt : String)
    (ing dbt : Except String Unit) (val : Except String Bool) :
    (fullPipelineFlow (Except.error e) dbt val).dbtRan = false ∧
    (fullPipelineFlow (Except.error e) dbt val).summary.isSome = true ∧
    (fullPipelineFlow (Except.error e) dbt val).result = Except.error e ∧
    (fullPipelineFlow (Except.ok ()) (Except.error eDbt) val).validationRan
        = true ∧
    (fullPipelineFlow (Except.ok ()) (Except.error eDbt) val).summary.isSome
        = true ∧
    (fullPipelineFlow (Except.ok ()) (Except.error eDbt) val).result
        = Except.error "Pipeline completed with errors" ∧
    (fullPipelineFlow ing dbt val).summary.isSome = true := by
  refine ⟨rfl, rfl, rfl, rfl, rfl, rfl, ?_⟩
  cases ing <;> rfl

/-- C2 counterexample: with the transactions task failed (retries exhausted)
and the other two tasks succeeded, `ingestion_flow` does not complete with a
partial-success report — collecting the failed future re-raises its error and
the flow's outcome is that error — even though the succeeding market-prices
task's row is present in its own target table. -/
theorem ingestion_flow_partial_failure_aborts :
    (ingestionFlow txFailedTask mpGoodTask fxGoodTask emptyWarehouse).1
        = Except.error "exhausted retries" ∧
    (ingestionFlow txFailedTask mpGoodTask fxGoodTask emptyWarehouse).2.mpTable
        = [7] :=
  ⟨rfl, rfl⟩

/-- C2 (amended): if one source's task exhausts its retries, its error
re-raises out of `ingestion_flow` at result collection, so the ingestion
stage fails rather than completing with a partial success count; sibling
tasks were all submitted before any result was awaited, so the succeeding
sources' effects are still committed to their own target tables. -/
theorem ingestion_flow_failed_source_raises {R : Type}
    (txTask mpTask fxTask : IngestTask R) (s : WarehouseState R) (e : String)
    (h : txTask.outcome = Except.error e) :
    (ingestionFlow txTask mpTask fxTask s).1 = Except.error e ∧
    (ingestionFlow txTask mpTask fxTask s).2.mpTable
        = mpTask.effect s.mpTable ∧
    (ingestionFlow txTask mpTask fxTask s).2.fxTable
        = fxTask.effect s.fxTable := by
  unfold ingestionFlow
  rw [h]
  exact ⟨rfl, rfl, rfl⟩

/-- C2 witness: the amended theorem applied to the concrete failed/succeeding
tasks. -/
theorem ingestion_flow_failed_source_raises_witness :
    (ingestionFlow txFailedTask mpGoodTask fxGoodTask emptyWarehouse).1
        = Except.error "exhausted retries" ∧
    (ingestionFlow txFailedTask mpGoodTask fxGoodTask emptyWarehouse).2.mpTable
        = mpGoodTask.effect emptyWarehouse.mpTable ∧
    (ingestionFlow txFailedTask mpGoodTask fxGoodTask emptyWarehouse).2.fxTable
        = fxGoodTask.effect emptyWarehouse.fxTable :=
  ingestion_flow_failed_source_raises txFailedTask mpGoodTask fxGoodTask
    emptyWarehouse "exhausted retries" rfl

/-- C9 counterexample: a network/timeout failure of the FX fetch is NOT
reported to the caller as a retryable error — `fetch_exchange_rates` catches
`RequestException` and returns an empty DataFrame, and the ingest loop then
completes successfully with zero rows, so the orchestrator observes plain
success, not a retryable failure. -/
theorem fetch_network_error_absorbed :
    fetchExchangeRates (Except.error FetchError.requestError) = [] ∧
    (ingestExchangeRatesRun [Except.error FetchError.requestError]
        emptyFxTable).1 = Except.ok 0 ∧
    (ingestExchangeRatesRun [Except.error FetchError.requestError]
        emptyFxTable).2 = emptyFxTable :=
  ⟨rfl, rfl, rfl⟩

/-- C9 (amended): network/timeout (and parse) failures of the fetch are
caught inside `fetch_exchange_rates` and converted into an empty row batch;
the source run then treats the chunk as "no new data" and returns success
with zero rows merged and an unchanged target — the fetch error is absorbed
into an empty result instead of surfacing as a distinct transient, retryable
failure kind. -/
theorem fetch_error_reported_as_empty_batch (e : FetchError)
    (t : Table FxKey Int) :
    fetchExchangeRates (Except.error e) = [] ∧
    ingestExchangeRatesRun [Except.error e] t = (Except.ok 0, t) := by
  cases e <;> exact ⟨rfl, rfl⟩

/-- C10: the transactions source uses a destructive truncate-then-load
pattern — with no CSV files `ingest_transactions` returns with no statement
executed and the target untouched; with at least one CSV file, the very
first statement affecting rows is the TRUNCATE, issued before any insert,
so the final table never depends on the pre-run rows: whatever failure is
injected partway through loading, the pre-run rows are gone. -/
theorem ingest_transactions_truncate_then_load {R : Type}
    (failOf : Nat → FailPoint) (f : List R) (fs : List (List R))
    (t t' : List R) :
    ingestTransactions failOf ([] : List (List R)) t = ⟨Except.ok 0, t, []⟩ ∧
    (ingestTransactions failOf (f :: fs) t).trace.head?
        = some SqlEvent.truncate ∧
    (ingestTransactions failOf (f :: fs) t).table
        = (ingestTransactions failOf (f :: fs) t').table :=
  ⟨rfl, rfl, rfl⟩

end Platform
